import Mathlib

/-!
Shallow embedding of the AFFiNE space-sync gateway
(`packages/backend/server/src/core/sync/gateway.ts`).

The gateway mediates real-time document synchronization over socket.io:
per-connection session adapters (one per space type) track joined rooms,
enforce access control on `join`, guard space-scoped operations with
`assertIn`, delegate persistence to a storage adapter, and broadcast
results to room members. External collaborators (permission service,
storage adapters, doc reader, base64 codec, runtime flags, the `DocID`
guid translation) are modelled as fields of an `Env` record of pure
functions; handler effects (emits, broadcasts, storage calls, access
checks) are recorded in an explicit event trace.
-/

deriving instance DecidableEq for Except

namespace AFFiNE.Sync

/-- Room sub-topic, `RoomType = 'sync' | `${string}:awareness`` in gateway.ts. -/
inductive RoomType where
  | sync
  | awareness (docId : String)
deriving DecidableEq, Repr

/-- String form of a room type: `"sync"` or `"<docId>:awareness"`. -/
def RoomType.str : RoomType → String
  | .sync => "sync"
  | .awareness docId => docId ++ ":awareness"

/-- Source `Room(spaceId, type)` from gateway.ts: `` `${spaceId}:${type}` ``. -/
def Room (spaceId : String) (type : RoomType) : String :=
  spaceId ++ ":" ++ type.str

/-- Source `enum SpaceType \x7b Workspace = 'workspace', Userspace = 'userspace' \x7d`. -/
inductive SpaceType where
  | workspace
  | userspace
deriving DecidableEq, Repr

/-- The string value of a `SpaceType` enum member. -/
def SpaceType.str : SpaceType → String
  | .workspace => "workspace"
  | .userspace => "userspace"

/-- Workspace role levels. Modelled from the spec: the permission module
(`../permission`) is not part of the sources; the spec only requires a role
type with a `Collaborator` member passed to `isWorkspaceMember`. -/
inductive WorkspaceRole where
  | external
  | collaborator
  | admin
  | owner
deriving DecidableEq, Repr

/-- The error taxonomy surfaced by the gateway (spec §7). Each constructor
carries the payload the corresponding `throw new ...` passes. -/
inductive GatewayError where
  | spaceAccessDenied (spaceId : String)
  | notInSpace (spaceId : String)
  | docNotFound (spaceId : String) (docId : String)
  | versionRejected (version : String) (serverVersion : String)
deriving DecidableEq, Repr

/-- Result of `getDocDiff`: `{missing, state, timestamp}` with binary fields
as byte lists. -/
structure DocDiff where
  missing : List Nat
  state : List Nat
  timestamp : Nat
deriving DecidableEq, Repr

/-- Storage adapter contract (spec §6): the subset of
`DocStorageAdapter` the gateway calls. Pure functions stand in for the
persistence layer; the fact that a call happened is recorded in the trace. -/
structure DocStorage where
  pushDocUpdates : String → String → List (List Nat) → String → Nat
  getDocDiff : String → String → Option (List Nat) → Option DocDiff
  getSpaceDocTimestamps : String → Option Nat → Option (List (String × Nat))

/-- The external world the gateway is wired to: runtime flag source, server
version, permission service, the two storage bindings, the doc reader, the
base64 codec at the transport boundary, and the `DocID` guid translation.

The guid translation is modelled from the spec: the `DocID` class
(`../utils/doc`) is not part of the sources; the spec describes it as "a
pure, deterministic mapping with no side effects" from `(docId, spaceId)`
to a canonical guid, so it is an opaque pure function here. -/
structure Env where
  serverVersion : String
  syncClientVersionCheck : Bool
  isWorkspaceMember : String → String → WorkspaceRole → Bool
  guid : String → String → String
  b64decode : String → List Nat
  b64encode : List Nat → String
  wsStorage : DocStorage
  usStorage : DocStorage
  docReaderGetDocDiff : String → String → Option (List Nat) → Option DocDiff

/-- Which external component served a diff request. -/
inductive DiffSource where
  | docReader
  | storage (spaceType : SpaceType)
deriving DecidableEq, Repr

/-- Observable effects of a handler run, in order of occurrence. Emission
constructors are named after the wire event they stand for; payload fields
mirror the emitted object. -/
inductive Event where
  | accessCheck (spaceType : SpaceType) (spaceId : String) (userId : String)
      (role : WorkspaceRole)
  | joinRoom (name : String)
  | leaveRoom (name : String)
  | emitVersionRejected (currentVersion : Option String)
      (requiredVersion : String) (reason : String)
  | storagePush (spaceType : SpaceType) (spaceId : String) (docId : String)
      (updates : List (List Nat)) (editorId : String)
  | storageDelete (spaceType : SpaceType) (spaceId : String) (docId : String)
  | storageGetTimestamps (spaceType : SpaceType) (spaceId : String)
      (since : Option Nat)
  | storageDiff (source : DiffSource) (spaceId : String) (docId : String)
      (stateVector : Option (List Nat))
  | broadcastDocUpdates (room : String) (spaceType : SpaceType)
      (spaceId : String) (docId : String) (updates : List String)
      (timestamp : Nat)
  | broadcastDocUpdate (room : String) (spaceType : SpaceType)
      (spaceId : String) (docId : String) (update : String) (timestamp : Nat)
      (editor : String)
  | serverUpdates (room : String) (workspaceId : String) (guid : String)
      (updates : List String) (timestamp : Nat)
deriving DecidableEq, Repr

/-- Per-connection state: the socket id and the set of joined room names
(`client.rooms`, owned by the transport, mutated only via join/leave). -/
structure ConnState where
  id : String
  rooms : List String
deriving DecidableEq, Repr

/-- Transport `client.join(room)`: set insertion into the socket's room set. -/
def ConnState.joinRoom (st : ConnState) (name : String) : ConnState :=
  if name ∈ st.rooms then st else { st with rooms := name :: st.rooms }

/-- Transport `client.leave(room)`: set removal from the socket's room set. -/
def ConnState.leaveRoom (st : ConnState) (name : String) : ConnState :=
  { st with rooms := st.rooms.filter (· ≠ name) }

/-- Source `SyncSocketAdapter.room`: `` `${this.spaceType}:${Room(spaceId, roomType)}` ``. -/
def adapterRoom (spaceType : SpaceType) (spaceId : String)
    (roomType : RoomType) : String :=
  spaceType.str ++ ":" ++ Room spaceId roomType

/-- The storage binding the adapter of a given space type was constructed
with (`PgWorkspaceDocStorageAdapter` / `PgUserspaceDocStorageAdapter`). -/
def Env.storageOf (env : Env) : SpaceType → DocStorage
  | .workspace => env.wsStorage
  | .userspace => env.usStorage

/-- Source `assertAccessible`, dispatched on the adapter's space type:
workspace — `isWorkspaceMember` or `SpaceAccessDenied`;
userspace — `spaceId !== userId` raises `SpaceAccessDenied`, the role
parameter is ignored. -/
def assertAccessible (env : Env) (spaceType : SpaceType) (spaceId : String)
    (userId : String) (role : WorkspaceRole) : Except GatewayError Unit :=
  match spaceType with
  | .workspace =>
      if env.isWorkspaceMember spaceId userId role then .ok ()
      else .error (.spaceAccessDenied spaceId)
  | .userspace =>
      if spaceId ≠ userId then .error (.spaceAccessDenied spaceId)
      else .ok ()

/-- Source `SyncSocketAdapter.in`: membership query on the socket's room set. -/
def inRoom (st : ConnState) (spaceType : SpaceType) (spaceId : String)
    (roomType : RoomType := .sync) : Bool :=
  adapterRoom spaceType spaceId roomType ∈ st.rooms

/-- Source `SyncSocketAdapter.assertIn`: `NotInSpace` unless the socket is in the
room. -/
def assertIn (st : ConnState) (spaceType : SpaceType) (spaceId : String)
    (roomType : RoomType := .sync) : Except GatewayError Unit :=
  if adapterRoom spaceType spaceId roomType ∈ st.rooms then .ok ()
  else .error (.notInSpace spaceId)

/-- Source `SyncSocketAdapter.join`: no-op when already in the room; otherwise
`assertAccessible` at role Collaborator (recorded as an `accessCheck`
event), then `client.join`. -/
def join (env : Env) (st : ConnState) (spaceType : SpaceType)
    (userId : String) (spaceId : String) (roomType : RoomType := .sync) :
    Except GatewayError Unit × ConnState × List Event :=
  if adapterRoom spaceType spaceId roomType ∈ st.rooms then
    (.ok (), st, [])
  else
    match assertAccessible env spaceType spaceId userId .collaborator with
    | .error e =>
        (.error e, st,
          [.accessCheck spaceType spaceId userId .collaborator])
    | .ok () =>
        let r := adapterRoom spaceType spaceId roomType
        (.ok (), st.joinRoom r,
          [.accessCheck spaceType spaceId userId .collaborator, .joinRoom r])

/-- Source `SyncSocketAdapter.leave`: no-op when not in the room; otherwise
`client.leave`. Never fails. -/
def leave (st : ConnState) (spaceType : SpaceType) (spaceId : String)
    (roomType : RoomType := .sync) : ConnState × List Event :=
  if adapterRoom spaceType spaceId roomType ∈ st.rooms then
    let r := adapterRoom spaceType spaceId roomType
    (st.leaveRoom r, [.leaveRoom r])
  else (st, [])

/-- Adapter `push`. Base class: `assertIn`, then
`storage.pushDocUpdates`. The workspace subclass first translates `docId`
through `DocID` and calls the base with the guid; the userspace subclass
uses the base unchanged. -/
def basePush (env : Env) (st : ConnState) (spaceType : SpaceType)
    (spaceId : String) (docId : String) (updates : List (List Nat))
    (editorId : String) : Except GatewayError Nat × List Event :=
  match assertIn st spaceType spaceId .sync with
  | .error e => (.error e, [])
  | .ok () =>
      (.ok ((env.storageOf spaceType).pushDocUpdates spaceId docId updates
          editorId),
        [.storagePush spaceType spaceId docId updates editorId])

/-- Adapter `push` dispatched on the space type (see `basePush`). -/
def push (env : Env) (st : ConnState) (spaceType : SpaceType)
    (spaceId : String) (docId : String) (updates : List (List Nat))
    (editorId : String) : Except GatewayError Nat × List Event :=
  match spaceType with
  | .workspace =>
      basePush env st .workspace spaceId (env.guid docId spaceId) updates
        editorId
  | .userspace => basePush env st .userspace spaceId docId updates editorId

/-- Adapter `diff`. The workspace subclass overrides the base entirely: it
translates `docId` through `DocID` and queries the doc reader, with no
`assertIn`. The userspace adapter inherits the base: `assertIn`, then
`storage.getDocDiff`. -/
def diff (env : Env) (st : ConnState) (spaceType : SpaceType)
    (spaceId : String) (docId : String) (stateVector : Option (List Nat)) :
    Except GatewayError (Option DocDiff) × List Event :=
  match spaceType with
  | .workspace =>
      (.ok (env.docReaderGetDocDiff spaceId (env.guid docId spaceId)
          stateVector),
        [.storageDiff .docReader spaceId (env.guid docId spaceId) stateVector])
  | .userspace =>
      match assertIn st .userspace spaceId .sync with
      | .error e => (.error e, [])
      | .ok () =>
          (.ok (env.usStorage.getDocDiff spaceId docId stateVector),
            [.storageDiff (.storage .userspace) spaceId docId stateVector])

/-- Adapter `delete` (base class only): `assertIn`, then
`storage.deleteDoc`. -/
def deleteDoc (st : ConnState) (spaceType : SpaceType) (spaceId : String)
    (docId : String) : Except GatewayError Unit × List Event :=
  match assertIn st spaceType spaceId .sync with
  | .error e => (.error e, [])
  | .ok () => (.ok (), [.storageDelete spaceType spaceId docId])

/-- Adapter `getTimestamps` (base class only): `assertIn`, then
`storage.getSpaceDocTimestamps`. -/
def getTimestamps (env : Env) (st : ConnState) (spaceType : SpaceType)
    (spaceId : String) (timestamp : Option Nat) :
    Except GatewayError (Option (List (String × Nat))) × List Event :=
  match assertIn st spaceType spaceId .sync with
  | .error e => (.error e, [])
  | .ok () =>
      (.ok ((env.storageOf spaceType).getSpaceDocTimestamps spaceId timestamp),
        [.storageGetTimestamps spaceType spaceId timestamp])

/-- JS `version || 'unknown'`: the empty string is falsy, as is `undefined`. -/
def jsOrUnknown : Option String → String
  | none => "unknown"
  | some v => if v = "" then "unknown" else v

/-- The `reason` string of the `server-version-rejected` payload:
`` `Client version${version ? ` ${version}` : ''} is outdated, please update to ${AFFiNE.version}` ``. -/
def rejectReason (version : Option String) (serverVersion : String) : String :=
  "Client version" ++
    (match version with
      | none => ""
      | some v => if v = "" then "" else " " ++ v) ++
    " is outdated, please update to " ++ serverVersion

/-- Source `SpaceSyncGateway.assertVersion`: when the `syncClientVersionCheck`
flag is on and the declared version is not exactly the server version,
emit `server-version-rejected` to the caller and raise `VersionRejected`
(whose payload uses `version || 'unknown'`). -/
def assertVersion (env : Env) (version : Option String) :
    Except GatewayError Unit × List Event :=
  if env.syncClientVersionCheck && version ≠ some env.serverVersion then
    (.error (.versionRejected (jsOrUnknown version) env.serverVersion),
      [.emitVersionRejected version env.serverVersion
        (rejectReason version env.serverVersion)])
  else (.ok (), [])

/-- Response of `space:join` / `space:join-awareness`:
`{clientId, success: true}`. -/
structure JoinResponse where
  clientId : String
  success : Bool
deriving DecidableEq, Repr

/-- Source `SpaceSyncGateway.onJoinSpace` (`space:join`): `assertVersion`, then
`selectAdapter(spaceType).join(user.id, spaceId)`. -/
def onJoinSpace (env : Env) (st : ConnState) (userId : String)
    (spaceType : SpaceType) (spaceId : String)
    (clientVersion : Option String) :
    Except GatewayError JoinResponse × ConnState × List Event :=
  match assertVersion env clientVersion with
  | (.error e, tr) => (.error e, st, tr)
  | (.ok (), tr) =>
      match join env st spaceType userId spaceId .sync with
      | (.error e, st', tr') => (.error e, st', tr ++ tr')
      | (.ok (), st', tr') => (.ok ⟨st.id, true⟩, st', tr ++ tr')

/-- Response of `space:load-doc`: `{missing, state, timestamp}`, binary
fields base64-encoded. -/
structure LoadDocResponse where
  missing : String
  state : String
  timestamp : Nat
deriving DecidableEq, Repr

/-- Source `SpaceSyncGateway.onLoadSpaceDoc` (`space:load-doc`):
`adapter.assertIn(spaceId)`; `adapter.diff` with the decoded state vector;
`DocNotFound` when the diff is null; otherwise base64-encode `missing` and
`state`. -/
def onLoadSpaceDoc (env : Env) (st : ConnState) (spaceType : SpaceType)
    (spaceId : String) (docId : String) (stateVector : Option String) :
    Except GatewayError LoadDocResponse × List Event :=
  match assertIn st spaceType spaceId .sync with
  | .error e => (.error e, [])
  | .ok () =>
      match diff env st spaceType spaceId docId
          (stateVector.map env.b64decode) with
      | (.error e, tr) => (.error e, tr)
      | (.ok none, tr) => (.error (.docNotFound spaceId docId), tr)
      | (.ok (some d), tr) =>
          (.ok ⟨env.b64encode d.missing, env.b64encode d.state, d.timestamp⟩,
            tr)

/-- Response of the push handlers: `{accepted: true, timestamp}`. -/
structure PushResponse where
  accepted : Bool
  timestamp : Nat
deriving DecidableEq, Repr

/-- Source `SpaceSyncGateway.onReceiveDocUpdates` (`space:push-doc-updates`,
deprecated): `adapter.push` with the base64-decoded updates; broadcast
`space:broadcast-doc-updates` (`{...message, timestamp}`) to
`adapter.room(spaceId)`; for workspace spaces additionally broadcast the
legacy `server-updates` event with flat `workspaceId`/`guid` fields. -/
def onReceiveDocUpdates (env : Env) (st : ConnState) (userId : String)
    (spaceType : SpaceType) (spaceId : String) (docId : String)
    (updates : List String) :
    Except GatewayError PushResponse × List Event :=
  match push env st spaceType spaceId docId (updates.map env.b64decode)
      userId with
  | (.error e, tr) => (.error e, tr)
  | (.ok ts, tr) =>
      let room := adapterRoom spaceType spaceId .sync
      let tr := tr ++
        [.broadcastDocUpdates room spaceType spaceId docId updates ts]
      let tr :=
        if spaceType = .workspace then
          tr ++ [.serverUpdates room spaceId (env.guid docId spaceId)
            updates ts]
        else tr
      (.ok ⟨true, ts⟩, tr)

/-- Source `SpaceSyncGateway.onReceiveDocUpdate` (`space:push-doc-update`):
`adapter.push` with the single decoded update; broadcast both
`space:broadcast-doc-updates` (updates wrapped in a singleton list) and
`space:broadcast-doc-update` (with the editor identity) to
`adapter.room(spaceId)`. -/
def onReceiveDocUpdate (env : Env) (st : ConnState) (userId : String)
    (spaceType : SpaceType) (spaceId : String) (docId : String)
    (update : String) : Except GatewayError PushResponse × List Event :=
  match push env st spaceType spaceId docId [env.b64decode update] userId with
  | (.error e, tr) => (.error e, tr)
  | (.ok ts, tr) =>
      let room := adapterRoom spaceType spaceId .sync
      (.ok ⟨true, ts⟩, tr ++
        [.broadcastDocUpdates room spaceType spaceId docId [update] ts,
          .broadcastDocUpdate room spaceType spaceId docId update ts userId])

/-- Source `SpaceSyncGateway.handleClientUpdateV2` (`client-update-v2`, legacy):
reshapes `{workspaceId, guid, updates}` and delegates to
`onReceiveDocUpdates` with `spaceType = workspace`. -/
def handleClientUpdateV2 (env : Env) (st : ConnState) (userId : String)
    (workspaceId : String) (guidArg : String) (updates : List String) :
    Except GatewayError PushResponse × List Event :=
  onReceiveDocUpdates env st userId .workspace workspaceId guidArg updates

/-- Trace predicate: is this event a `server-version-rejected` emission? -/
def Event.isVersionRejectEmit : Event → Bool
  | .emitVersionRejected .. => true
  | _ => false

/-- Trace predicate: is this event a `pushDocUpdates` storage call? -/
def Event.isStoragePush : Event → Bool
  | .storagePush .. => true
  | _ => false

/-- Trace predicate: is this event a `space:broadcast-doc-updates`
broadcast? -/
def Event.isBroadcastDocUpdates : Event → Bool
  | .broadcastDocUpdates .. => true
  | _ => false

/-- Trace predicate: is this event a legacy `server-updates` broadcast? -/
def Event.isServerUpdates : Event → Bool
  | .serverUpdates .. => true
  | _ => false

/-- Trace predicate: is this event an outbound emission (as opposed to a
storage call or an internal access check)? -/
def Event.isEmission : Event → Bool
  | .emitVersionRejected .. => true
  | .broadcastDocUpdates .. => true
  | .broadcastDocUpdate .. => true
  | .serverUpdates .. => true
  | _ => false

/-- A concrete storage binding whose diff always reports a missing doc. -/
def emptyStorage : DocStorage where
  pushDocUpdates := fun _ _ updates _ => updates.length
  getDocDiff := fun _ _ _ => none
  getSpaceDocTimestamps := fun _ _ => none

/-- A concrete storage binding whose diff always finds a document. -/
def fullStorage : DocStorage where
  pushDocUpdates := fun _ _ updates _ => updates.length
  getDocDiff := fun _ _ _ => some ⟨[1], [2], 5⟩
  getSpaceDocTimestamps := fun _ _ => some [("d1", 3)]

/-- A concrete environment: version check on, nobody is a workspace
member, docs missing. -/
def envDeny : Env where
  serverVersion := "1.0.0"
  syncClientVersionCheck := true
  isWorkspaceMember := fun _ _ _ => false
  guid := fun docId spaceId => spaceId ++ "/" ++ docId
  b64decode := fun s => [s.length]
  b64encode := fun l => String.mk (l.map Char.ofNat)
  wsStorage := emptyStorage
  usStorage := emptyStorage
  docReaderGetDocDiff := fun _ _ _ => none

/-- A concrete environment: version check off, everybody is a workspace
member, docs present. -/
def envAllow : Env where
  serverVersion := "1.0.0"
  syncClientVersionCheck := false
  isWorkspaceMember := fun _ _ _ => true
  guid := fun docId spaceId => spaceId ++ "/" ++ docId
  b64decode := fun s => [s.length]
  b64encode := fun l => String.mk (l.map Char.ofNat)
  wsStorage := fullStorage
  usStorage := fullStorage
  docReaderGetDocDiff := fun _ _ _ => some ⟨[7], [8], 9⟩

/-- A fresh connection that has joined no room. -/
def conn0 : ConnState := ⟨"c1", []⟩

/-- A connection already in the workspace and userspace sync rooms of
space `w1`. -/
def connW1 : ConnState :=
  ⟨"c1", [adapterRoom .workspace "w1" .sync, adapterRoom .userspace "w1" .sync]⟩

/-- The room name a connection lands in after a successful fresh join. -/
theorem ConnState.mem_joinRoom (st : ConnState) (name : String) :
    name ∈ (st.joinRoom name).rooms := by
  unfold ConnState.joinRoom
  split
  · assumption
  · exact List.mem_cons_self _ _

/-- Access control only ever succeeds or raises `SpaceAccessDenied` with
the requested space id. -/
theorem assertAccessible_ok_or_denied (env : Env) (t : SpaceType)
    (s u : String) (role : WorkspaceRole) :
    assertAccessible env t s u role = .ok () ∨
      assertAccessible env t s u role = .error (.spaceAccessDenied s) := by
  cases t with
  | workspace =>
    simp only [assertAccessible]
    by_cases hm : env.isWorkspaceMember s u role <;> simp [hm]
  | userspace =>
    simp only [assertAccessible]
    by_cases hs : s = u <;> simp [hs]

/-- Connection state after a `join` call (`(join ...).2.1`). -/
def joinState (env : Env) (st : ConnState) (spaceType : SpaceType)
    (userId spaceId : String) (roomType : RoomType) : ConnState :=
  (join env st spaceType userId spaceId roomType).2.1

/-- C10: for the userspace adapter, `assertAccessible` ignores the role
argument — any two roles give the same outcome, which is success exactly
when `spaceId = userId` and `SpaceAccessDenied` exactly when they differ. -/
theorem userspace_access_role_irrelevant (env : Env) (spaceId userId : String)
    (r1 r2 : WorkspaceRole) :
    assertAccessible env .userspace spaceId userId r1 =
      assertAccessible env .userspace spaceId userId r2 ∧
    (assertAccessible env .userspace spaceId userId r1 = .ok () ↔
      spaceId = userId) ∧
    (assertAccessible env .userspace spaceId userId r1 =
      .error (.spaceAccessDenied spaceId) ↔ spaceId ≠ userId) := by
  unfold assertAccessible
  by_cases h : spaceId = userId <;> simp [h]

/-- C1: a fresh `join` (connection not yet in the target room) raises
`SpaceAccessDenied` when the workspace membership check fails, or when the
userspace id differs from the user's own id; on success the connection is
added to the room. -/
theorem join_access_control (env : Env) (st : ConnState)
    (spaceType : SpaceType) (userId spaceId : String) (roomType : RoomType)
    (h : adapterRoom spaceType spaceId roomType ∉ st.rooms) :
    (spaceType = .workspace →
      env.isWorkspaceMember spaceId userId .collaborator = false →
      (join env st spaceType userId spaceId roomType).1 =
        .error (.spaceAccessDenied spaceId)) ∧
    (spaceType = .userspace → spaceId ≠ userId →
      (join env st spaceType userId spaceId roomType).1 =
        .error (.spaceAccessDenied spaceId)) ∧
    ((join env st spaceType userId spaceId roomType).1 = .ok () →
      adapterRoom spaceType spaceId roomType ∈
        (join env st spaceType userId spaceId roomType).2.1.rooms) := by
  refine ⟨?_, ?_, ?_⟩
  · rintro rfl hm
    simp [join, h, assertAccessible, hm]
  · rintro rfl hne
    simp [join, h, assertAccessible, hne]
  · intro hok
    unfold join at hok ⊢
    rw [if_neg h] at hok ⊢
    cases ha : assertAccessible env spaceType spaceId userId .collaborator with
    | error e => rw [ha] at hok; simp at hok
    | ok v =>
      cases v
      exact ConnState.mem_joinRoom st _

/-- C1 witness: with a non-member user, joining workspace `w1` from a
fresh connection is denied; a userspace join under a mismatched id is also
denied. -/
theorem join_access_control_witness :
    (join envDeny conn0 .workspace "u1" "w1" .sync).1 =
      .error (.spaceAccessDenied "w1") ∧
    (join envDeny conn0 .userspace "u1" "w1" .sync).1 =
      .error (.spaceAccessDenied "w1") :=
  ⟨(join_access_control envDeny conn0 .workspace "u1" "w1" .sync
      (by decide)).1 rfl rfl,
    (join_access_control envDeny conn0 .userspace "u1" "w1" .sync
      (by decide)).2.1 rfl (by decide)⟩

/-- C8: adapter `push` on a joined space translates the doc id through the
guid mapping for workspace spaces and passes it unchanged for userspace
spaces; space id, updates and editor id reach storage unchanged either
way. -/
theorem push_guid_translation (env : Env) (st : ConnState) (s d : String)
    (ups : List (List Nat)) (ed : String) :
    (adapterRoom .workspace s .sync ∈ st.rooms →
      push env st .workspace s d ups ed =
        (.ok (env.wsStorage.pushDocUpdates s (env.guid d s) ups ed),
          [.storagePush .workspace s (env.guid d s) ups ed])) ∧
    (adapterRoom .userspace s .sync ∈ st.rooms →
      push env st .userspace s d ups ed =
        (.ok (env.usStorage.pushDocUpdates s d ups ed),
          [.storagePush .userspace s d ups ed])) := by
  constructor <;> intro hm <;>
    simp [push, basePush, assertIn, hm, Env.storageOf]

/-- C8 witness: concrete pushes through both adapters on a connection in
both `w1` sync rooms. -/
theorem push_guid_translation_witness :
    push envAllow connW1 .workspace "w1" "d1" [[1]] "u1" =
      (.ok (envAllow.wsStorage.pushDocUpdates "w1" (envAllow.guid "d1" "w1")
          [[1]] "u1"),
        [.storagePush .workspace "w1" (envAllow.guid "d1" "w1") [[1]] "u1"]) ∧
    push envAllow connW1 .userspace "w1" "d1" [[1]] "u1" =
      (.ok (envAllow.usStorage.pushDocUpdates "w1" "d1" [[1]] "u1"),
        [.storagePush .userspace "w1" "d1" [[1]] "u1"]) :=
  ⟨(push_guid_translation envAllow connW1 "w1" "d1" [[1]] "u1").1 (by decide),
    (push_guid_translation envAllow connW1 "w1" "d1" [[1]] "u1").2
      (by decide)⟩

/-- C4: `join` is idempotent — the room-membership state after joining
twice with the same arguments equals the state after joining once, and a
second call after a successful first returns immediately with an empty
trace (in particular, no `accessCheck` event: it returns before
`assertAccessible`). -/
theorem join_idempotent (env : Env) (st : ConnState) (t : SpaceType)
    (u s : String) (r : RoomType) :
    joinState env (joinState env st t u s r) t u s r =
      joinState env st t u s r ∧
    (∀ st' tr, join env st t u s r = (.ok (), st', tr) →
      join env st' t u s r = (.ok (), st', [])) := by
  by_cases hmem : adapterRoom t s r ∈ st.rooms
  · refine ⟨by simp [joinState, join, hmem], ?_⟩
    intro st' tr hj
    simp only [join, if_pos hmem, Prod.mk.injEq, true_and] at hj
    obtain ⟨hst, -⟩ := hj
    subst hst
    simp [join, hmem]
  · cases ha : assertAccessible env t s u .collaborator with
    | error e =>
      refine ⟨by simp [joinState, join, hmem, ha], ?_⟩
      intro st' tr hj
      simp [join, hmem, ha] at hj
    | ok v =>
      cases v
      refine ⟨?_, ?_⟩
      · simp [joinState, join, hmem, ha, ConnState.joinRoom]
      · intro st' tr hj
        simp only [join, if_neg hmem, ha, Prod.mk.injEq, true_and] at hj
        obtain ⟨hst, -⟩ := hj
        subst hst
        simp [join, ConnState.joinRoom, hmem]

/-- C4 witness: joining workspace `w1` once from a fresh connection
succeeds; replaying the call returns the same state with an empty trace. -/
theorem join_idempotent_witness :
    join envAllow ⟨"c1", [adapterRoom .workspace "w1" .sync]⟩ .workspace
        "u1" "w1" .sync =
      (.ok (), ⟨"c1", [adapterRoom .workspace "w1" .sync]⟩, []) :=
  (join_idempotent envAllow conn0 .workspace "u1" "w1" .sync).2
    ⟨"c1", [adapterRoom .workspace "w1" .sync]⟩
    [.accessCheck .workspace "w1" "u1" .collaborator,
      .joinRoom (adapterRoom .workspace "w1" .sync)] (by decide)

/-- A `join` never emits a `server-version-rejected` notification. -/
theorem join_trace_no_version_emit (env : Env) (st : ConnState)
    (t : SpaceType) (u s : String) (r : RoomType) :
    ((join env st t u s r).2.2.filter Event.isVersionRejectEmit) = [] := by
  unfold join
  split
  · rfl
  · cases assertAccessible env t s u .collaborator with
    | error e => rfl
    | ok v => cases v; rfl

/-- A `join` never fails with `VersionRejected`. -/
theorem join_result_not_version (env : Env) (st : ConnState) (t : SpaceType)
    (u s : String) (r : RoomType) (v sv : String) :
    (join env st t u s r).1 ≠ .error (.versionRejected v sv) := by
  have hacc := assertAccessible_ok_or_denied env t s u .collaborator
  unfold join
  split
  · simp
  · rcases hacc with hacc | hacc <;> rw [hacc] <;> simp

/-- C3: with the `syncClientVersionCheck` flag on and a mismatched (or
absent) client version, `space:join` emits exactly one
`server-version-rejected` notification and fails with `VersionRejected`
leaving the room state untouched; with the flag off, no version is ever
rejected and no such notification is emitted. -/
theorem version_gate (env : Env) (st : ConnState) (userId : String)
    (spaceType : SpaceType) (spaceId : String) (version : Option String) :
    (env.syncClientVersionCheck = true → version ≠ some env.serverVersion →
      onJoinSpace env st userId spaceType spaceId version =
        (.error (.versionRejected (jsOrUnknown version) env.serverVersion),
          st,
          [.emitVersionRejected version env.serverVersion
            (rejectReason version env.serverVersion)])) ∧
    (env.syncClientVersionCheck = false →
      ((onJoinSpace env st userId spaceType spaceId version).2.2.filter
          Event.isVersionRejectEmit) = [] ∧
      ∀ v sv, (onJoinSpace env st userId spaceType spaceId version).1 ≠
        .error (.versionRejected v sv)) := by
  constructor
  · intro hflag hver
    simp [onJoinSpace, assertVersion, hflag, hver]
  · intro hflag
    have h1 := join_trace_no_version_emit env st spaceType userId spaceId .sync
    have h2 := join_result_not_version env st spaceType userId spaceId .sync
    rcases hj : join env st spaceType userId spaceId .sync with ⟨res, st', tr'⟩
    rw [hj] at h1 h2
    simp only [onJoinSpace, assertVersion, hflag, Bool.false_and,
      Bool.false_eq_true, if_false, hj]
    cases res with
    | error e =>
      refine ⟨by simpa using h1, ?_⟩
      intro v sv
      simpa using h2 v sv
    | ok v =>
      cases v
      refine ⟨by simpa using h1, ?_⟩
      intro v sv
      simp

/-- C3 witness: a stale version is rejected with one notification when
the flag is on; with the flag off an absent version joins with no
notification. -/
theorem version_gate_witness :
    onJoinSpace envDeny conn0 "u1" .userspace "u1" (some "0.9.0") =
      (.error (.versionRejected "0.9.0" "1.0.0"), conn0,
        [.emitVersionRejected (some "0.9.0") "1.0.0"
          (rejectReason (some "0.9.0") "1.0.0")]) ∧
    ((onJoinSpace envAllow conn0 "u1" .userspace "u1" none).2.2.filter
      Event.isVersionRejectEmit) = [] :=
  ⟨(version_gate envDeny conn0 "u1" .userspace "u1" (some "0.9.0")).1 rfl
      (by decide),
    ((version_gate envAllow conn0 "u1" .userspace "u1" none).2 rfl).1⟩

/-- C6: on a joined space, `space:load-doc` fails with `DocNotFound`
carrying the space and doc ids when the adapter diff is null, and
otherwise returns the diff's `missing` and `state` base64-encoded together
with its numeric timestamp. -/
theorem load_doc_result (env : Env) (st : ConnState) (t : SpaceType)
    (s d : String) (sv : Option String)
    (h : adapterRoom t s .sync ∈ st.rooms) :
    ((diff env st t s d (sv.map env.b64decode)).1 = .ok none →
      (onLoadSpaceDoc env st t s d sv).1 = .error (.docNotFound s d)) ∧
    (∀ dd, (diff env st t s d (sv.map env.b64decode)).1 = .ok (some dd) →
      (onLoadSpaceDoc env st t s d sv).1 =
        .ok ⟨env.b64encode dd.missing, env.b64encode dd.state,
          dd.timestamp⟩) := by
  have hin : assertIn st t s .sync = .ok () := by simp [assertIn, h]
  constructor
  · intro hd
    rcases hdiff : diff env st t s d (sv.map env.b64decode) with ⟨res, tr⟩
    rw [hdiff] at hd
    simp only at hd
    subst hd
    simp [onLoadSpaceDoc, hin, hdiff]
  · intro dd hd
    rcases hdiff : diff env st t s d (sv.map env.b64decode) with ⟨res, tr⟩
    rw [hdiff] at hd
    simp only at hd
    subst hd
    simp [onLoadSpaceDoc, hin, hdiff]

/-- C6 witness: with a doc reader that finds no document, `load-doc` on a
joined workspace raises `DocNotFound "w1" "d1"`; with one that finds a
document, it returns the encoded fields. -/
theorem load_doc_result_witness :
    (onLoadSpaceDoc envDeny connW1 .workspace "w1" "d1" none).1 =
      .error (.docNotFound "w1" "d1") ∧
    (onLoadSpaceDoc envAllow connW1 .workspace "w1" "d1" none).1 =
      .ok ⟨envAllow.b64encode [7], envAllow.b64encode [8], 9⟩ :=
  ⟨(load_doc_result envDeny connW1 .workspace "w1" "d1" none
        (by decide)).1 (by decide),
    (load_doc_result envAllow connW1 .workspace "w1" "d1" none
        (by decide)).2 ⟨[7], [8], 9⟩ (by decide)⟩

/-- C2 counterexample: on a fresh connection that joined nothing, the
workspace adapter's `diff` does not raise `NotInSpace` — the override
skips the room check entirely and queries the doc reader. -/
theorem workspace_diff_skips_room_check :
    (diff envDeny conn0 .workspace "w1" "d1" none).1 = .ok none ∧
    (diff envDeny conn0 .workspace "w1" "d1" none).1 ≠
      .error (.notInSpace "w1") ∧
    (diff envDeny conn0 .workspace "w1" "d1" none).2 =
      [.storageDiff .docReader "w1" (envDeny.guid "d1" "w1") none] := by
  refine ⟨rfl, by decide, rfl⟩

/-- C2 (amended): on a space whose sync room the connection has not
joined, `push`, `delete` and `getTimestamps` raise `NotInSpace` with an
empty trace (storage untouched) for both adapters, and so does the
userspace adapter's `diff`; the workspace adapter's `diff` instead
performs no room check and delegates straight to the doc reader. -/
theorem not_in_space_guard (env : Env) (st : ConnState) (t : SpaceType)
    (s d : String) (ups : List (List Nat)) (ed : String)
    (sv : Option (List Nat)) (tsp : Option Nat)
    (h : adapterRoom t s .sync ∉ st.rooms) :
    push env st t s d ups ed = (.error (.notInSpace s), []) ∧
    deleteDoc st t s d = (.error (.notInSpace s), []) ∧
    getTimestamps env st t s tsp = (.error (.notInSpace s), []) ∧
    (t = .userspace → diff env st t s d sv = (.error (.notInSpace s), [])) ∧
    (t = .workspace → diff env st t s d sv =
      (.ok (env.docReaderGetDocDiff s (env.guid d s) sv),
        [.storageDiff .docReader s (env.guid d s) sv])) := by
  have hin : assertIn st t s .sync = .error (.notInSpace s) := by
    simp [assertIn, h]
  refine ⟨?_, ?_, ?_, ?_, ?_⟩
  · cases t <;> simp [push, basePush, hin]
  · simp [deleteDoc, hin]
  · simp [getTimestamps, hin]
  · rintro rfl
    simp [diff, hin]
  · rintro rfl
    simp [diff]

/-- C2 witness: concrete not-joined pushes and deletes through both
adapters raise `NotInSpace` without reaching storage. -/
theorem not_in_space_guard_witness :
    push envAllow conn0 .workspace "w1" "d1" [[1]] "u1" =
      (.error (.notInSpace "w1"), []) ∧
    deleteDoc conn0 .userspace "w1" "d1" = (.error (.notInSpace "w1"), []) :=
  ⟨(not_in_space_guard envAllow conn0 .workspace "w1" "d1" [[1]] "u1" none
        none (by decide)).1,
    (not_in_space_guard envAllow conn0 .userspace "w1" "d1" [[1]] "u1" none
        none (by decide)).2.1⟩

/-- C7: `client-update-v2` with a single update and `push-doc-update`
with the same update perform identical storage pushes (same space id,
translated doc id, decoded bytes, editor), identical
`space:broadcast-doc-updates` broadcasts (same room and payload), and
return the same response. -/
theorem legacy_update_v2_equiv (env : Env) (st : ConnState)
    (userId W D u : String) :
    ((handleClientUpdateV2 env st userId W D [u]).2.filter
        Event.isStoragePush) =
      ((onReceiveDocUpdate env st userId .workspace W D u).2.filter
        Event.isStoragePush) ∧
    ((handleClientUpdateV2 env st userId W D [u]).2.filter
        Event.isBroadcastDocUpdates) =
      ((onReceiveDocUpdate env st userId .workspace W D u).2.filter
        Event.isBroadcastDocUpdates) ∧
    (handleClientUpdateV2 env st userId W D [u]).1 =
      (onReceiveDocUpdate env st userId .workspace W D u).1 := by
  unfold handleClientUpdateV2 onReceiveDocUpdates onReceiveDocUpdate
  simp only [List.map_cons, List.map_nil]
  rcases hp : push env st .workspace W D [env.b64decode u] userId with ⟨res, tr⟩
  cases res with
  | error e => simp
  | ok ts =>
    simp [List.filter_append, Event.isStoragePush,
      Event.isBroadcastDocUpdates]

/-- C9: on a joined space, the deprecated `push-doc-updates` broadcasts a
legacy `server-updates` event exactly when the space type is workspace;
for a userspace space the only emission is `space:broadcast-doc-updates`. -/
theorem legacy_server_updates_asymmetry (env : Env) (st : ConnState)
    (userId : String) (t : SpaceType) (s d : String) (ups : List String)
    (h : adapterRoom t s .sync ∈ st.rooms) :
    (((onReceiveDocUpdates env st userId t s d ups).2.filter
        Event.isServerUpdates) ≠ [] ↔ t = .workspace) ∧
    (t = .userspace →
      ((onReceiveDocUpdates env st userId t s d ups).2.filter
          Event.isEmission) =
        [.broadcastDocUpdates (adapterRoom .userspace s .sync) .userspace s d
          ups (env.usStorage.pushDocUpdates s d (ups.map env.b64decode)
            userId)]) := by
  cases t with
  | workspace =>
    simp [onReceiveDocUpdates, push, basePush, assertIn, h, Env.storageOf,
      Event.isServerUpdates, Event.isEmission, List.filter_append]
  | userspace =>
    simp [onReceiveDocUpdates, push, basePush, assertIn, h, Env.storageOf,
      Event.isServerUpdates, Event.isEmission, List.filter_append]

/-- C9 witness: a workspace push from a joined connection emits the
legacy event; a userspace push emits only the broadcast. -/
theorem legacy_server_updates_asymmetry_witness :
    (((onReceiveDocUpdates envAllow connW1 "u1" .workspace "w1" "d1"
        ["aa"]).2.filter Event.isServerUpdates) ≠ [] ↔
      SpaceType.workspace = SpaceType.workspace) ∧
    ((onReceiveDocUpdates envAllow connW1 "u1" .userspace "w1" "d1"
        ["aa"]).2.filter Event.isEmission) =
      [.broadcastDocUpdates (adapterRoom .userspace "w1" .sync) .userspace
        "w1" "d1" ["aa"]
        (envAllow.usStorage.pushDocUpdates "w1" "d1"
          (["aa"].map envAllow.b64decode) "u1")] :=
  ⟨(legacy_server_updates_asymmetry envAllow connW1 "u1" .workspace "w1"
        "d1" ["aa"] (by decide)).1,
    (legacy_server_updates_asymmetry envAllow connW1 "u1" .userspace "w1"
        "d1" ["aa"] (by decide)).2 rfl⟩

/-- C5 counterexample: distinct `(spaceId, roomType)` pairs can produce
the same room name when the ids contain the `':'` separator — spaceId
`"a"` with awareness doc `"b:c"` collides with spaceId `"a:b"` with
awareness doc `"c"`. -/
theorem room_name_collision :
    adapterRoom .workspace "a" (.awareness "b:c") =
      adapterRoom .workspace "a:b" (.awareness "c") ∧
    ¬(("a" : String) = "a:b" ∧
      RoomType.awareness "b:c" = RoomType.awareness "c") := by
  refine ⟨rfl, by decide⟩

/-- A string that contains no `':'` separator character. -/
abbrev colonFree (s : String) : Prop := ':' ∉ s.data

/-- A room type whose awareness doc id contains no `':'`. -/
def RoomType.colonFreeDoc : RoomType → Prop
  | .sync => True
  | .awareness d => ':' ∉ d.data

instance : ∀ r : RoomType, Decidable r.colonFreeDoc
  | .sync => .isTrue trivial
  | .awareness d => inferInstanceAs (Decidable (':' ∉ d.data))

/-- Splitting a list at a separator absent from both prefixes is
unambiguous. -/
theorem sep_split_unique {α : Type} [DecidableEq α] (sep : α) :
    ∀ (a c b d : List α), sep ∉ a → sep ∉ c →
      a ++ sep :: b = c ++ sep :: d → a = c ∧ b = d := by
  intro a
  induction a with
  | nil =>
    intro c b d _ hc h
    cases c with
    | nil => simpa using h
    | cons x xs =>
      simp only [List.nil_append, List.cons_append, List.cons.injEq] at h
      exact absurd (h.1 ▸ List.mem_cons_self x xs) (by simp_all)
  | cons x xs ih =>
    intro c b d ha hc h
    cases c with
    | nil =>
      simp only [List.cons_append, List.nil_append, List.cons.injEq] at h
      exact absurd (h.1 ▸ List.mem_cons_self sep xs) (by simp_all)
    | cons y ys =>
      simp only [List.cons_append, List.cons.injEq] at h
      obtain ⟨hxy, hrest⟩ := h
      have hih := ih ys b d (fun hm => ha (List.mem_cons_of_mem _ hm))
        (fun hm => hc (List.mem_cons_of_mem _ hm)) hrest
      exact ⟨by rw [hxy, hih.1], hih.2⟩

/-- Character data of the `":awareness"` suffix. -/
theorem awareness_suffix_data :
    (":awareness" : String).data = ':' :: ("awareness" : String).data := rfl

/-- Character data of the `":"` separator literal. -/
theorem colon_data : (":" : String).data = [':'] := rfl

/-- Function `RoomType.str` is injective on room types with colon-free doc ids. -/
theorem roomType_str_inj (r₁ r₂ : RoomType) (h₁ : r₁.colonFreeDoc)
    (h₂ : r₂.colonFreeDoc) (h : r₁.str.data = r₂.str.data) : r₁ = r₂ := by
  cases r₁ with
  | sync =>
    cases r₂ with
    | sync => rfl
    | awareness d =>
      exfalso
      have hmem : (':' : Char) ∈ ("sync" : String).data := by
        rw [show RoomType.str .sync = "sync" from rfl] at h
        rw [h]
        simp [RoomType.str, String.data_append, awareness_suffix_data]
      exact absurd hmem (by decide)
  | awareness d₁ =>
    cases r₂ with
    | sync =>
      exfalso
      have hmem : (':' : Char) ∈ ("sync" : String).data := by
        rw [show RoomType.str .sync = "sync" from rfl] at h
        rw [← h]
        simp [RoomType.str, String.data_append, awareness_suffix_data]
      exact absurd hmem (by decide)
    | awareness d₂ =>
      have h' : d₁.data ++ ':' :: ("awareness" : String).data =
          d₂.data ++ ':' :: ("awareness" : String).data := by
        simpa [RoomType.str, String.data_append, awareness_suffix_data]
          using h
      obtain ⟨hd, -⟩ := sep_split_unique ':' d₁.data d₂.data _ _ h₁ h₂ h'
      rw [String.ext hd]

/-- C5 (amended): `room` is the pure composition
`"<spaceType>:<spaceId>:<roomType>"`, and for a fixed space type it is
injective on `(spaceId, roomType)` pairs whose space id and awareness doc
id contain no `':'` character (without that restriction distinct pairs can
collide, see the counterexample). -/
theorem room_name_injective (t : SpaceType) (s₁ s₂ : String)
    (r₁ r₂ : RoomType) (hs₁ : colonFree s₁) (hs₂ : colonFree s₂)
    (hr₁ : r₁.colonFreeDoc) (hr₂ : r₂.colonFreeDoc) :
    adapterRoom t s₁ r₁ = t.str ++ ":" ++ s₁ ++ ":" ++ r₁.str ∧
    (adapterRoom t s₁ r₁ = adapterRoom t s₂ r₂ ↔ s₁ = s₂ ∧ r₁ = r₂) := by
  constructor
  · simp [adapterRoom, Room, String.append_assoc]
  · constructor
    · intro h
      have hd := congrArg String.data h
      simp only [adapterRoom, Room, String.data_append, colon_data,
        List.append_assoc, List.singleton_append] at hd
      have hd2 := List.append_cancel_left hd
      simp only [List.cons.injEq, true_and] at hd2
      obtain ⟨hsd, hrd⟩ :=
        sep_split_unique ':' s₁.data s₂.data _ _ hs₁ hs₂ hd2
      exact ⟨String.ext hsd, roomType_str_inj r₁ r₂ hr₁ hr₂ hrd⟩
    · rintro ⟨rfl, rfl⟩
      rfl

/-- C5 witness: colon-free ids give the composed name and collide only on
equal pairs. -/
theorem room_name_injective_witness :
    (adapterRoom .workspace "w1" (.awareness "d1") =
      SpaceType.workspace.str ++ ":" ++ "w1" ++ ":" ++
        (RoomType.awareness "d1").str) ∧
    (adapterRoom .workspace "w1" (.awareness "d1") =
        adapterRoom .workspace "w2" (.awareness "d1") ↔
      "w1" = "w2" ∧ RoomType.awareness "d1" = RoomType.awareness "d1") :=
  room_name_injective .workspace "w1" "w2" (.awareness "d1")
    (.awareness "d1") (by decide) (by decide) (by decide) (by decide)

end AFFiNE.Sync
